import Mathlib

/-!
Verification of the geometric core of the rasterstats zonal-statistics engine
(`src/rasterstats/utils.py`): affine pixel-window computation with boundary
clipping, the geometry-ingestion dispatcher, format adapters and the
rasterization contract.

World coordinates (Python floats) are modelled as exact rationals; Python ints
are modelled as unbounded integers, matching Python's arbitrary-precision ints.
-/

/-- Affine geotransform in GDAL layout `(gt[0], ..., gt[5])` =
(origin-x, pixel-width, row-rotation, origin-y, column-rotation, pixel-height).
The source indexes the transform as a 6-tuple; the fields keep those indices. -/
structure GeoTransform where
  gt0 : ℚ
  gt1 : ℚ
  gt2 : ℚ
  gt3 : ℚ
  gt4 : ℚ
  gt5 : ℚ

/-- Bounding box `(bbox[0], bbox[1], bbox[2], bbox[3])` = (minX, minY, maxX, maxY)
in world coordinates, indexed as in the source. -/
structure BBox where
  b0 : ℚ
  b1 : ℚ
  b2 : ℚ
  b3 : ℚ

/-- Embeds `bbox_to_pixel_offsets(gt, bbox, rsize)`: floor/ceil inversion of the
affine transform on the bbox corners, then one-sided clamping (`x1`, `y1` clamped
below at 0; `x2`, `y2` clamped above at the raster size), returning
`(x1, y1, x2 - x1, y2 - y1)`.  `int(math.floor(q))` and `int(math.ceil(q))` on an
exact value are `Int.floor` and `Int.ceil`. -/
def bbox_to_pixel_offsets (gt : GeoTransform) (bbox : BBox) (rsize : ℤ × ℤ) :
    ℤ × ℤ × ℤ × ℤ :=
  let originX := gt.gt0
  let originY := gt.gt3
  let pixel_width := gt.gt1
  let pixel_height := gt.gt5
  let x1 : ℤ := ⌊(bbox.b0 - originX) / pixel_width⌋
  let x2 : ℤ := ⌈(bbox.b2 - originX) / pixel_width⌉
  let y1 : ℤ := ⌊(bbox.b3 - originY) / pixel_height⌋
  let y2 : ℤ := ⌈(bbox.b1 - originY) / pixel_height⌉
  let x1 := if x1 < 0 then 0 else x1
  let x2 := if x2 > rsize.1 then rsize.1 else x2
  let y1 := if y1 < 0 then 0 else y1
  let y2 := if y2 > rsize.2 then rsize.2 else y2
  (x1, y1, x2 - x1, y2 - y1)

/-- Embeds `pixel_offsets_to_window(offsets)`: checks the offsets form a
4-element tuple (else `RasterStatsError`) and restates the rectangle as
half-open row/column intervals `((y1, y1+ysize), (x1, x1+xsize))`. -/
def pixel_offsets_to_window (offsets : List ℤ) :
    Except String ((ℤ × ℤ) × (ℤ × ℤ)) :=
  match offsets with
  | [x1, y1, xsize, ysize] => Except.ok ((y1, y1 + ysize), (x1, x1 + xsize))
  | _ => Except.error "offset should be a 4-element tuple"

/-- Embeds `raster_extent_as_bounds(gt, shape)`: world-space bounds
`(gt[0], gt[3] + gt[5]*shape[1], gt[0] + gt[1]*shape[0], gt[3])` of the whole
raster. -/
def raster_extent_as_bounds (gt : GeoTransform) (shape : ℤ × ℤ) : BBox :=
  { b0 := gt.gt0
    b1 := gt.gt3 + gt.gt5 * (shape.2 : ℚ)
    b2 := gt.gt0 + gt.gt1 * (shape.1 : ℚ)
    b3 := gt.gt3 }

/-- OGR geometry-type code `ogr.wkbLineString` (external `osgeo.ogr` constant). -/
def wkbLineString : ℕ := 2

/-- OGR geometry-type code `ogr.wkbPolygon` (external `osgeo.ogr` constant). -/
def wkbPolygon : ℕ := 3

/-- OGR geometry-type code `ogr.wkbMultiPolygon` (external `osgeo.ogr` constant). -/
def wkbMultiPolygon : ℕ := 6

/-- Embeds `shapely_to_ogr_type(shapely_type)`: maps "Polygon", "LineString",
"MultiPolygon" and "MultiLineString" to OGR codes (MultiLineString reuses
`ogr.wkbLineString`) and raises `TypeError` for every other name. -/
def shapely_to_ogr_type (shapely_type : String) : Except String ℕ :=
  if shapely_type = "Polygon" then Except.ok wkbPolygon
  else if shapely_type = "LineString" then Except.ok wkbLineString
  else if shapely_type = "MultiPolygon" then Except.ok wkbMultiPolygon
  else if shapely_type = "MultiLineString" then Except.ok wkbLineString
  else Except.error ("shapely type " ++ shapely_type ++ " not supported")

/-- A GeoJSON-like Python mapping as far as the source inspects one: its `type`
field, its `features` list (consulted only for feature collections), and an
abstract payload standing for the rest of the mapping (coordinates, properties,
...) so that distinct documents stay distinct. -/
inductive GeoMapping : Type where
  | mk : (type : String) → (features : List GeoMapping) → (payload : ℤ) → GeoMapping

/-- The `type` field of a mapping (`thing['type']`). -/
def GeoMapping.type : GeoMapping → String
  | GeoMapping.mk t _ _ => t

/-- The `features` field of a mapping (`thing['features']`). -/
def GeoMapping.features : GeoMapping → List GeoMapping
  | GeoMapping.mk _ fs _ => fs

/-- The kinds of Python value `parse_geo` / `get_features` dispatch on: a `str`,
a `bytes` value, a plain `dict`, an object exposing `__geo_interface__`, or any
other iterable. -/
inductive Thing : Type where
  | str : String → Thing
  | bytes : List ℕ → Thing
  | mapping : GeoMapping → Thing
  | geoObj : GeoMapping → Thing
  | iter : List Thing → Thing

/-- Typed model of the exceptions the embedded functions raise:
`RasterStatsError("Can't parse %s as a geo-like object" % thing)` and
`OGRError("No Features")`. -/
inductive Err : Type where
  | cantParse : Thing → Err
  | noFeatures : Err

/-- External decoding collaborators used by `parse_geo`: `shapely.wkb.loads` on
a `str` or on `bytes`, `shapely.wkt.loads` on a `str`, and `json.loads` on a
`str`.  `some` models a successful decode to a geo-interface mapping, `none`
models the `ReadingError`/`ValueError` the fallback chain catches.  Called on
any other input kind these library functions raise the `TypeError` that the
chain also catches, which the embedding of `parse_geo` hard-codes. -/
structure ShapelyLib where
  wkbLoadsStr : String → Option GeoMapping
  wkbLoadsBytes : List ℕ → Option GeoMapping
  wktLoadsStr : String → Option GeoMapping
  jsonLoads : String → Option GeoMapping

/-- The `valid_types` list of `parse_geo`. -/
def validTypes : List String :=
  ["Feature", "Point", "LineString", "Polygon",
   "MultiPoint", "MultiLineString", "MultiPolygon"]

/-- Embeds `parse_geo(thing)`.  The source is an exception-driven fallback
chain (geo-interface attribute, wkb, wkt, raw mapping with recognized `type`,
JSON string with recognized `type`, else `RasterStatsError`); since each branch
deterministically raises the caught `AttributeError`/`TypeError` on input kinds
it does not accept, the chain collapses per input kind: a geo-interface object
returns its interface at the first branch; a `dict` reaches only the
raw-mapping branch (the JSON branch's `json.loads(dict)` raises `TypeError`);
a `str` tries wkb, wkt, then JSON (`"FeatureCollection"` admitted only there);
`bytes` only decode as wkb; any other iterable falls through to the final
raise. -/
def parse_geo (lib : ShapelyLib) (thing : Thing) : Except Err GeoMapping :=
  match thing with
  | Thing.geoObj gi => Except.ok gi
  | Thing.mapping m =>
      if m.type ∈ validTypes then Except.ok m
      else Except.error (Err.cantParse thing)
  | Thing.str s =>
      match lib.wkbLoadsStr s with
      | some g => Except.ok g
      | none =>
          match lib.wktLoadsStr s with
          | some g => Except.ok g
          | none =>
              match lib.jsonLoads s with
              | some mg =>
                  if mg.type ∈ validTypes ++ ["FeatureCollection"] then Except.ok mg
                  else Except.error (Err.cantParse thing)
              | none => Except.error (Err.cantParse thing)
  | Thing.bytes b =>
      match lib.wkbLoadsBytes b with
      | some g => Except.ok g
      | none => Except.error (Err.cantParse thing)
  | Thing.iter _ => Except.error (Err.cantParse thing)

/-- A vector layer as the source consumes one through OGR: the records its
features convert to via `feature_to_geojson` (so `GetFeatureCount() == 0` is
`features = []`), and its spatial reference (`GetSpatialRef()`, possibly
`None`).  `ogr.Open` plus `GetLayer` is modelled as a partial map from source
strings to layers (the default `layer_num = 0` of the embedded call sites). -/
structure OGRLayer where
  features : List GeoMapping
  srs : Option String

/-- The lazy sequence `get_features` returns, before anyone advances it: an
unstarted `ogr_records` generator over a layer, an eagerly-built one-element
list, or an unstarted `geo_records` generator over raw items.  Python generator
functions run none of their body at call time; the body runs on iteration. -/
inductive FeaturesIter : Type where
  | ogrGen : OGRLayer → FeaturesIter
  | single : GeoMapping → FeaturesIter
  | geoGen : List Thing → FeaturesIter

/-- Embeds iterating the `ogr_records(vector, layer_num)` generator to
exhaustion: the yielded records paired with the terminal outcome (`some
Err.noFeatures` models the `raise OGRError("No Features")` that fires when the
feature count is zero — on first advance, since the function is a generator). -/
def ogr_records (layer : OGRLayer) : List GeoMapping × Option Err :=
  if layer.features.length = 0 then ([], some Err.noFeatures)
  else (layer.features, none)

/-- Embeds iterating the `geo_records(vectors)` generator: yields
`parse_geo(v)` per item until the first item whose parse raises, which aborts
the sequence with that error; items after it are never reached. -/
def geo_records (lib : ShapelyLib) : List Thing → List GeoMapping × Option Err
  | [] => ([], none)
  | v :: vs =>
      match parse_geo lib v with
      | Except.ok g => (g :: (geo_records lib vs).1, (geo_records lib vs).2)
      | Except.error e => ([], some e)

/-- Advances a returned `FeaturesIter` to exhaustion: the records yielded and
the error, if any, that aborted the iteration. -/
def runIter (lib : ShapelyLib) : FeaturesIter → List GeoMapping × Option Err
  | FeaturesIter.ogrGen layer => ogr_records layer
  | FeaturesIter.single f => ([f], none)
  | FeaturesIter.geoGen items => geo_records lib items

/-- Embeds `get_features(vectors, layer_num)` over an abstract OGR world
(`world s = some layer` models `ogr.Open(s)` succeeding with that layer at the
default layer index; `none` models `ogr.Open` returning a null dataset, whose
`OGRError` the source catches before falling back to `parse_geo`).  The string
branch builds the `ogr_records` generator without running its body and fetches
the layer's spatial reference via `ogr_srs`; every `single_geo` branch calls
`parse_geo` eagerly, so its parse error propagates from the call itself; the
geo-interface branch checks `type.lower() == 'featurecollection'`; any other
input becomes an unstarted `geo_records` generator.  The fresh empty
`osr.SpatialReference()` of the non-OGR branches is modelled as `none`. -/
def get_features (world : String → Option OGRLayer) (lib : ShapelyLib)
    (vectors : Thing) : Except Err (FeaturesIter × String × Option String) :=
  match vectors with
  | Thing.str s =>
      match world s with
      | some layer => Except.ok (FeaturesIter.ogrGen layer, "ogr", layer.srs)
      | none =>
          match parse_geo lib (Thing.str s) with
          | Except.ok feat => Except.ok (FeaturesIter.single feat, "single_geo", none)
          | Except.error e => Except.error e
  | Thing.bytes b =>
      match parse_geo lib (Thing.bytes b) with
      | Except.ok feat => Except.ok (FeaturesIter.single feat, "single_geo", none)
      | Except.error e => Except.error e
  | Thing.geoObj gi =>
      if gi.type.toLower = "featurecollection" then
        Except.ok (FeaturesIter.geoGen (gi.features.map Thing.mapping),
                   "geo_featurecollection", none)
      else
        match parse_geo lib (Thing.geoObj gi) with
        | Except.ok feat => Except.ok (FeaturesIter.single feat, "single_geo", none)
        | Except.error e => Except.error e
  | Thing.mapping m =>
      match parse_geo lib (Thing.mapping m) with
      | Except.ok feat => Except.ok (FeaturesIter.single feat, "single_geo", none)
      | Except.error e => Except.error e
  | Thing.iter items =>
      Except.ok (FeaturesIter.geoGen items, "iter_geo", none)

/-- World coordinates of fractional pixel position `(col, row)` under a GDAL
geotransform: `X = gt0 + gt1*col + gt2*row`, `Y = gt3 + gt4*col + gt5*row`. -/
def worldOfPixel (gt : GeoTransform) (col row : ℚ) : ℚ × ℚ :=
  (gt.gt0 + gt.gt1 * col + gt.gt2 * row,
   gt.gt3 + gt.gt4 * col + gt.gt5 * row)

/-- Modelled from the spec: the world-space cell of pixel `(row, col)` — the
image of the unit pixel square under the window-local transform.  Needed
because the rasterization backend (`rasterio.features.rasterize`) is an
external library whose code is not in this repository. -/
def pixelCell (gt : GeoTransform) (row col : ℤ) : Set (ℚ × ℚ) :=
  {p | ∃ u v : ℚ, (col : ℚ) ≤ u ∧ u ≤ (col : ℚ) + 1 ∧
    (row : ℚ) ≤ v ∧ v ≤ (row : ℚ) + 1 ∧ p = worldOfPixel gt u v}

/-- Modelled from the spec: the center point of pixel `(row, col)` in world
coordinates, the representative point of the strict inclusion rule. -/
def pixelCenter (gt : GeoTransform) (row col : ℤ) : ℚ × ℚ :=
  worldOfPixel gt ((col : ℚ) + 1/2) ((row : ℚ) + 1/2)

/-- Modelled from the spec: `rasterize_geom(geom, src_offset, new_gt,
all_touched)` delegates to the external `rasterio.features.rasterize` with
`out_shape = (src_offset[3], src_offset[2])`; only its inclusion-rule contract
is specified — with `all_touched` a cell is covered when it intersects the
geometry by area, otherwise only when its center point falls inside the
geometry.  The geometry is the set of world points it occupies; the mask has
the window's shape `(h, w)`. -/
def rasterize_geom (geom : Set (ℚ × ℚ)) (new_gt : GeoTransform)
    (all_touched : Bool) (h w : ℕ) (i : Fin h) (j : Fin w) : Prop :=
  match all_touched with
  | true => (geom ∩ pixelCell new_gt ((i : ℕ) : ℤ) ((j : ℕ) : ℤ)).Nonempty
  | false => pixelCenter new_gt ((i : ℕ) : ℤ) ((j : ℕ) : ℤ) ∈ geom

/-- A concrete north-up transform `(0, 1, 0, 10, 0, -1)` used by witnesses. -/
def gtExample : GeoTransform :=
  { gt0 := 0, gt1 := 1, gt2 := 0, gt3 := 10, gt4 := 0, gt5 := -1 }

/-- A concrete GeoJSON Polygon mapping used by witnesses. -/
def polyMap : GeoMapping := GeoMapping.mk "Polygon" [] 7

/-- A concrete mapping with an unrecognized `type`, used by witnesses. -/
def badMap : GeoMapping := GeoMapping.mk "Bogus" [] 8

/-- A concrete FeatureCollection mapping used by witnesses. -/
def fcMap : GeoMapping := GeoMapping.mk "FeatureCollection" [polyMap] 9

/-- A layer with zero features, used by the zero-feature-source scenario. -/
def emptyLayer : OGRLayer := { features := [], srs := none }

/-- An OGR world in which every source string opens to the empty layer. -/
def world0 : String → Option OGRLayer := fun _ => some emptyLayer

/-- An OGR world in which no source string opens. -/
def worldNone : String → Option OGRLayer := fun _ => none

/-- A decoding library on which every wkb/wkt decode fails and every JSON
decode yields the concrete FeatureCollection mapping. -/
def lib0 : ShapelyLib :=
  { wkbLoadsStr := fun _ => none
    wkbLoadsBytes := fun _ => none
    wktLoadsStr := fun _ => none
    jsonLoads := fun _ => some fcMap }

/-- Claim C5: with transform (0, 1, 0, 10, 0, -1), raster size (10, 10) and
bbox (2.0, 3.0, 5.0, 6.0), `bbox_to_pixel_offsets` returns the window
(2, 4, 3, 3). -/
theorem c5_example_window :
    bbox_to_pixel_offsets gtExample { b0 := 2, b1 := 3, b2 := 5, b3 := 6 }
      (10, 10) = (2, 4, 3, 3) := by
  norm_num [bbox_to_pixel_offsets, gtExample, Int.ceil_neg, Int.floor_neg]

/-- Claim C9: applying `pixel_offsets_to_window` to the window
`(x, y, w, h)` computed by `bbox_to_pixel_offsets` succeeds and yields the
half-open intervals `((y, y+h), (x, x+w))`, whose row interval has length `h`
and whose column interval has length `w`. -/
theorem c9_roundtrip (gt : GeoTransform) (bbox : BBox) (rsize : ℤ × ℤ) :
    pixel_offsets_to_window
      [(bbox_to_pixel_offsets gt bbox rsize).1,
       (bbox_to_pixel_offsets gt bbox rsize).2.1,
       (bbox_to_pixel_offsets gt bbox rsize).2.2.1,
       (bbox_to_pixel_offsets gt bbox rsize).2.2.2] =
      Except.ok
        (((bbox_to_pixel_offsets gt bbox rsize).2.1,
          (bbox_to_pixel_offsets gt bbox rsize).2.1 +
            (bbox_to_pixel_offsets gt bbox rsize).2.2.2),
         ((bbox_to_pixel_offsets gt bbox rsize).1,
          (bbox_to_pixel_offsets gt bbox rsize).1 +
            (bbox_to_pixel_offsets gt bbox rsize).2.2.1)) ∧
    ((bbox_to_pixel_offsets gt bbox rsize).2.1 +
        (bbox_to_pixel_offsets gt bbox rsize).2.2.2) -
      (bbox_to_pixel_offsets gt bbox rsize).2.1 =
      (bbox_to_pixel_offsets gt bbox rsize).2.2.2 ∧
    ((bbox_to_pixel_offsets gt bbox rsize).1 +
        (bbox_to_pixel_offsets gt bbox rsize).2.2.1) -
      (bbox_to_pixel_offsets gt bbox rsize).1 =
      (bbox_to_pixel_offsets gt bbox rsize).2.2.1 :=
  ⟨rfl, by omega, by omega⟩

/-- Claim C1, counterexample: for the transform (0, 1, 0, 10, 0, -1) (positive
pixel-width, negative pixel-height), raster size (10, 10) and the bbox
(-5, -5, -2, -2) lying entirely outside the raster, `bbox_to_pixel_offsets`
returns (0, 12, -2, -2): the width and height are negative, not zero, and the
y-offset 12 lies outside [0, 10). -/
theorem c1_counterexample :
    0 < gtExample.gt1 ∧ gtExample.gt5 < 0 ∧
    bbox_to_pixel_offsets gtExample { b0 := -5, b1 := -5, b2 := -2, b3 := -2 }
        (10, 10) = (0, 12, -2, -2) ∧
    ¬ 0 ≤ (bbox_to_pixel_offsets gtExample
        { b0 := -5, b1 := -5, b2 := -2, b3 := -2 } (10, 10)).2.2.1 ∧
    ¬ (bbox_to_pixel_offsets gtExample
        { b0 := -5, b1 := -5, b2 := -2, b3 := -2 } (10, 10)).2.1 < 10 := by
  have heq : bbox_to_pixel_offsets gtExample
      { b0 := -5, b1 := -5, b2 := -2, b3 := -2 } (10, 10) = (0, 12, -2, -2) := by
    norm_num [bbox_to_pixel_offsets, gtExample, Int.ceil_neg, Int.floor_neg]
  refine ⟨by norm_num [gtExample], by norm_num [gtExample], heq, ?_, ?_⟩
  · rw [heq]; decide
  · rw [heq]; decide

/-- Claim C3, counterexample: `shapely_to_ogr_type` does not return a code for
each of the seven canonical geometry type names — on "Point" it raises
`TypeError` instead. -/
theorem c3_counterexample :
    shapely_to_ogr_type "Point" =
      Except.error "shapely type Point not supported" := rfl

/-- Claim C3, amended: `shapely_to_ogr_type` returns codes only for "Polygon",
"LineString", "MultiPolygon" and "MultiLineString"; "Polygon" and
"MultiPolygon" return distinct deterministic codes, "MultiLineString" maps to
the same code as "LineString", and every other name — including "Point",
"MultiPoint" and "Feature" — raises `TypeError`. -/
theorem c3_amended (s : String) (h1 : s ≠ "Polygon") (h2 : s ≠ "LineString")
    (h3 : s ≠ "MultiPolygon") (h4 : s ≠ "MultiLineString") :
    shapely_to_ogr_type "Polygon" = Except.ok wkbPolygon ∧
    shapely_to_ogr_type "MultiPolygon" = Except.ok wkbMultiPolygon ∧
    wkbPolygon ≠ wkbMultiPolygon ∧
    shapely_to_ogr_type "MultiLineString" = shapely_to_ogr_type "LineString" ∧
    shapely_to_ogr_type "LineString" = Except.ok wkbLineString ∧
    shapely_to_ogr_type "Point" =
      Except.error "shapely type Point not supported" ∧
    shapely_to_ogr_type "MultiPoint" =
      Except.error "shapely type MultiPoint not supported" ∧
    shapely_to_ogr_type "Feature" =
      Except.error "shapely type Feature not supported" ∧
    shapely_to_ogr_type s =
      Except.error ("shapely type " ++ s ++ " not supported") := by
  refine ⟨rfl, rfl, by decide, rfl, rfl, rfl, rfl, rfl, ?_⟩
  simp [shapely_to_ogr_type, h1, h2, h3, h4]

/-- Witness for C3's amended theorem at the concrete name "Point". -/
theorem c3_witness :
    ("Point" ≠ "Polygon" ∧ "Point" ≠ "LineString" ∧
      "Point" ≠ "MultiPolygon" ∧ "Point" ≠ "MultiLineString") ∧
    (shapely_to_ogr_type "Polygon" = Except.ok wkbPolygon ∧
     shapely_to_ogr_type "MultiPolygon" = Except.ok wkbMultiPolygon ∧
     wkbPolygon ≠ wkbMultiPolygon ∧
     shapely_to_ogr_type "MultiLineString" = shapely_to_ogr_type "LineString" ∧
     shapely_to_ogr_type "LineString" = Except.ok wkbLineString ∧
     shapely_to_ogr_type "Point" =
       Except.error "shapely type Point not supported" ∧
     shapely_to_ogr_type "MultiPoint" =
       Except.error "shapely type MultiPoint not supported" ∧
     shapely_to_ogr_type "Feature" =
       Except.error "shapely type Feature not supported" ∧
     shapely_to_ogr_type "Point" =
       Except.error ("shapely type " ++ "Point" ++ " not supported")) :=
  ⟨by decide,
   c3_amended "Point" (by decide) (by decide) (by decide) (by decide)⟩

/-- Claim C1, amended: for transforms with positive pixel-width and negative
pixel-height, well-formed bboxes and nonnegative raster sizes,
`bbox_to_pixel_offsets` always returns offsets ≥ 0 whose right/bottom edges
(offset + extent) never exceed the raster size, and the width and height are
additionally ≥ 0 whenever the bbox meets the raster's world extent; when the
bbox falls entirely outside the raster the width or height is negative, not
zero (see the counterexample). -/
theorem c1_amended (gt : GeoTransform) (bbox : BBox) (W H : ℤ)
    (hpw : 0 < gt.gt1) (hph : gt.gt5 < 0)
    (hbx : bbox.b0 ≤ bbox.b2) (hby : bbox.b1 ≤ bbox.b3)
    (hW : 0 ≤ W) (hH : 0 ≤ H)
    (hleft : gt.gt0 ≤ bbox.b2)
    (hright : bbox.b0 ≤ gt.gt0 + (W : ℚ) * gt.gt1)
    (htop : bbox.b1 ≤ gt.gt3)
    (hbot : gt.gt3 + (H : ℚ) * gt.gt5 ≤ bbox.b3) :
    0 ≤ (bbox_to_pixel_offsets gt bbox (W, H)).1 ∧
    0 ≤ (bbox_to_pixel_offsets gt bbox (W, H)).2.1 ∧
    (bbox_to_pixel_offsets gt bbox (W, H)).1 +
      (bbox_to_pixel_offsets gt bbox (W, H)).2.2.1 ≤ W ∧
    (bbox_to_pixel_offsets gt bbox (W, H)).2.1 +
      (bbox_to_pixel_offsets gt bbox (W, H)).2.2.2 ≤ H ∧
    0 ≤ (bbox_to_pixel_offsets gt bbox (W, H)).2.2.1 ∧
    0 ≤ (bbox_to_pixel_offsets gt bbox (W, H)).2.2.2 := by
  have hab : (bbox.b0 - gt.gt0) / gt.gt1 ≤ (bbox.b2 - gt.gt0) / gt.gt1 :=
    (div_le_div_iff_of_pos_right hpw).mpr (by linarith)
  have hb0 : (0 : ℚ) ≤ (bbox.b2 - gt.gt0) / gt.gt1 :=
    div_nonneg (by linarith) hpw.le
  have haW : (bbox.b0 - gt.gt0) / gt.gt1 ≤ (W : ℚ) :=
    (div_le_iff₀ hpw).mpr (by linarith)
  have hcd : (bbox.b3 - gt.gt3) / gt.gt5 ≤ (bbox.b1 - gt.gt3) / gt.gt5 :=
    (div_le_div_right_of_neg hph).mpr (by linarith)
  have hd0' : (0 : ℚ) / gt.gt5 ≤ (bbox.b1 - gt.gt3) / gt.gt5 :=
    (div_le_div_right_of_neg hph).mpr (by linarith)
  have hd0 : (0 : ℚ) ≤ (bbox.b1 - gt.gt3) / gt.gt5 := by rwa [zero_div] at hd0'
  have hcH : (bbox.b3 - gt.gt3) / gt.gt5 ≤ (H : ℚ) :=
    (div_le_iff_of_neg hph).mpr (by linarith)
  have hAB : ⌊(bbox.b0 - gt.gt0) / gt.gt1⌋ ≤ ⌈(bbox.b2 - gt.gt0) / gt.gt1⌉ :=
    le_trans (Int.floor_mono hab) (Int.floor_le_ceil _)
  have hB0 : (0 : ℤ) ≤ ⌈(bbox.b2 - gt.gt0) / gt.gt1⌉ := Int.ceil_nonneg hb0
  have hAW : ⌊(bbox.b0 - gt.gt0) / gt.gt1⌋ ≤ W := by
    have h := Int.floor_mono haW
    rwa [Int.floor_intCast] at h
  have hCD : ⌊(bbox.b3 - gt.gt3) / gt.gt5⌋ ≤ ⌈(bbox.b1 - gt.gt3) / gt.gt5⌉ :=
    le_trans (Int.floor_mono hcd) (Int.floor_le_ceil _)
  have hD0 : (0 : ℤ) ≤ ⌈(bbox.b1 - gt.gt3) / gt.gt5⌉ := Int.ceil_nonneg hd0
  have hCH : ⌊(bbox.b3 - gt.gt3) / gt.gt5⌋ ≤ H := by
    have h := Int.floor_mono hcH
    rwa [Int.floor_intCast] at h
  simp only [bbox_to_pixel_offsets, gt_iff_lt]
  split_ifs <;> omega

/-- Witness for C1's amended theorem at the transform (0, 1, 0, 10, 0, -1),
bbox (2, 3, 5, 6) and raster size (10, 10). -/
theorem c1_witness :
    (0 < gtExample.gt1 ∧ gtExample.gt5 < 0 ∧
      (2 : ℚ) ≤ 5 ∧ (3 : ℚ) ≤ 6 ∧ (0 : ℤ) ≤ 10 ∧ (0 : ℤ) ≤ 10 ∧
      gtExample.gt0 ≤ 5 ∧ (2 : ℚ) ≤ gtExample.gt0 + (10 : ℚ) * gtExample.gt1 ∧
      (3 : ℚ) ≤ gtExample.gt3 ∧
      gtExample.gt3 + (10 : ℚ) * gtExample.gt5 ≤ 6) ∧
    (0 ≤ (bbox_to_pixel_offsets gtExample
        { b0 := 2, b1 := 3, b2 := 5, b3 := 6 } (10, 10)).1 ∧
     0 ≤ (bbox_to_pixel_offsets gtExample
        { b0 := 2, b1 := 3, b2 := 5, b3 := 6 } (10, 10)).2.1 ∧
     (bbox_to_pixel_offsets gtExample
        { b0 := 2, b1 := 3, b2 := 5, b3 := 6 } (10, 10)).1 +
       (bbox_to_pixel_offsets gtExample
        { b0 := 2, b1 := 3, b2 := 5, b3 := 6 } (10, 10)).2.2.1 ≤ 10 ∧
     (bbox_to_pixel_offsets gtExample
        { b0 := 2, b1 := 3, b2 := 5, b3 := 6 } (10, 10)).2.1 +
       (bbox_to_pixel_offsets gtExample
        { b0 := 2, b1 := 3, b2 := 5, b3 := 6 } (10, 10)).2.2.2 ≤ 10 ∧
     0 ≤ (bbox_to_pixel_offsets gtExample
        { b0 := 2, b1 := 3, b2 := 5, b3 := 6 } (10, 10)).2.2.1 ∧
     0 ≤ (bbox_to_pixel_offsets gtExample
        { b0 := 2, b1 := 3, b2 := 5, b3 := 6 } (10, 10)).2.2.2) :=
  ⟨by norm_num [gtExample],
   c1_amended gtExample { b0 := 2, b1 := 3, b2 := 5, b3 := 6 } 10 10
     (by norm_num [gtExample]) (by norm_num [gtExample])
     (by norm_num) (by norm_num) (by norm_num) (by norm_num)
     (by norm_num [gtExample]) (by norm_num [gtExample])
     (by norm_num [gtExample]) (by norm_num [gtExample])⟩

/-- Claim C4: if the bbox is exactly the raster's full extent as computed by
`raster_extent_as_bounds` from the same transform and dimensions, then
`bbox_to_pixel_offsets` returns exactly (0, 0, rasterWidth, rasterHeight).
(The pixel-width and pixel-height must be non-zero, the transform validity
precondition the spec states in section 4.1.) -/
theorem c4_full_extent (gt : GeoTransform) (W H : ℤ)
    (h1 : gt.gt1 ≠ 0) (h5 : gt.gt5 ≠ 0) :
    bbox_to_pixel_offsets gt (raster_extent_as_bounds gt (W, H)) (W, H) =
      (0, 0, W, H) := by
  have e2 : (gt.gt0 + gt.gt1 * (W : ℚ) - gt.gt0) / gt.gt1 = (W : ℚ) := by
    field_simp
  have e4 : (gt.gt3 + gt.gt5 * (H : ℚ) - gt.gt3) / gt.gt5 = (H : ℚ) := by
    field_simp
  simp only [bbox_to_pixel_offsets, raster_extent_as_bounds, e2, e4, sub_self,
    zero_div, Int.floor_zero, Int.floor_intCast, Int.ceil_intCast, gt_iff_lt,
    lt_self_iff_false, if_false, sub_zero]

/-- Witness for C4 at the transform (0, 1, 0, 10, 0, -1) and raster size
(3, 4). -/
theorem c4_witness :
    (gtExample.gt1 ≠ 0 ∧ gtExample.gt5 ≠ 0) ∧
    bbox_to_pixel_offsets gtExample
        (raster_extent_as_bounds gtExample (3, 4)) (3, 4) = (0, 0, 3, 4) :=
  ⟨⟨by norm_num [gtExample], by norm_num [gtExample]⟩,
   c4_full_extent gtExample 3 4 (by norm_num [gtExample])
     (by norm_num [gtExample])⟩

/-- Claim C6: `get_features` on a plain mapping whose `type` is "Polygon"
returns strategy "single_geo" and a sequence yielding exactly one record,
namely the input mapping itself. -/
theorem c6_polygon_mapping (world : String → Option OGRLayer) (lib : ShapelyLib)
    (m : GeoMapping) (hm : m.type = "Polygon") :
    get_features world lib (Thing.mapping m) =
      Except.ok (FeaturesIter.single m, "single_geo", none) ∧
    runIter lib (FeaturesIter.single m) = ([m], none) := by
  have hp : parse_geo lib (Thing.mapping m) = Except.ok m := by
    simp [parse_geo, hm, validTypes]
  exact ⟨by simp [get_features, hp], rfl⟩

/-- Witness for C6 at the concrete Polygon mapping. -/
theorem c6_witness :
    polyMap.type = "Polygon" ∧
    (get_features worldNone lib0 (Thing.mapping polyMap) =
       Except.ok (FeaturesIter.single polyMap, "single_geo", none) ∧
     runIter lib0 (FeaturesIter.single polyMap) = ([polyMap], none)) :=
  ⟨rfl, c6_polygon_mapping worldNone lib0 polyMap rfl⟩

/-- Claim C10: a plain mapping whose `type` is "FeatureCollection" fails
`parse_geo` with the parse error naming it (the raw-mapping branch admits only
the seven `valid_types`), while a JSON-encoded string decoding to the same
document parses successfully, because only the JSON-string branch admits
"FeatureCollection". -/
theorem c10_featurecollection_mapping_vs_string (lib : ShapelyLib)
    (m : GeoMapping) (s : String) (hm : m.type = "FeatureCollection")
    (hwkb : lib.wkbLoadsStr s = none) (hwkt : lib.wktLoadsStr s = none)
    (hjson : lib.jsonLoads s = some m) :
    parse_geo lib (Thing.mapping m) =
      Except.error (Err.cantParse (Thing.mapping m)) ∧
    parse_geo lib (Thing.str s) = Except.ok m := by
  constructor
  · simp [parse_geo, hm, validTypes]
  · simp [parse_geo, hwkb, hwkt, hjson, hm, validTypes]

/-- Witness for C10 at the concrete FeatureCollection mapping and a string
that JSON-decodes to it. -/
theorem c10_witness :
    (fcMap.type = "FeatureCollection" ∧ lib0.wkbLoadsStr "fc.json" = none ∧
     lib0.wktLoadsStr "fc.json" = none ∧ lib0.jsonLoads "fc.json" = some fcMap) ∧
    (parse_geo lib0 (Thing.mapping fcMap) =
       Except.error (Err.cantParse (Thing.mapping fcMap)) ∧
     parse_geo lib0 (Thing.str "fc.json") = Except.ok fcMap) :=
  ⟨⟨rfl, rfl, rfl, rfl⟩,
   c10_featurecollection_mapping_vs_string lib0 fcMap "fc.json" rfl rfl rfl rfl⟩

/-- Claim C2, counterexample: on a source string that opens to a zero-feature
layer, `get_features` returns successfully — it does not fail at the point of
the call; the "No Features" error only fires when the returned generator is
advanced. -/
theorem c2_counterexample :
    get_features world0 lib0 (Thing.str "empty.shp") =
      Except.ok (FeaturesIter.ogrGen emptyLayer, "ogr", none) ∧
    ogr_records emptyLayer = ([], some Err.noFeatures) := ⟨rfl, rfl⟩

/-- Claim C2, amended: `get_features` on a vector source path that opens but
reports zero features returns the unstarted `ogr_records` generator with
strategy "ogr"; the `OGRError("No Features")` is raised when that sequence is
first advanced, not at the point of the `get_features` call. -/
theorem c2_amended (world : String → Option OGRLayer) (lib : ShapelyLib)
    (s : String) (layer : OGRLayer) (hopen : world s = some layer)
    (hempty : layer.features = []) :
    get_features world lib (Thing.str s) =
      Except.ok (FeaturesIter.ogrGen layer, "ogr", layer.srs) ∧
    runIter lib (FeaturesIter.ogrGen layer) = ([], some Err.noFeatures) := by
  constructor
  · simp [get_features, hopen]
  · simp [runIter, ogr_records, hempty]

/-- Witness for C2's amended theorem at the concrete empty-layer world. -/
theorem c2_witness :
    (world0 "empty.shp" = some emptyLayer ∧ emptyLayer.features = []) ∧
    (get_features world0 lib0 (Thing.str "empty.shp") =
       Except.ok (FeaturesIter.ogrGen emptyLayer, "ogr", emptyLayer.srs) ∧
     runIter lib0 (FeaturesIter.ogrGen emptyLayer) =
       ([], some Err.noFeatures)) :=
  ⟨⟨rfl, rfl⟩, c2_amended world0 lib0 "empty.shp" emptyLayer rfl rfl⟩

/-- Every error `parse_geo` raises is the final
`RasterStatsError("Can't parse %s as a geo-like object" % thing)` naming the
offending input. -/
theorem parse_geo_error_shape (lib : ShapelyLib) (t : Thing) (e : Err)
    (h : parse_geo lib t = Except.error e) : e = Err.cantParse t := by
  cases t with
  | geoObj gi => simp [parse_geo] at h
  | mapping m =>
      by_cases hmem : m.type ∈ validTypes
      · simp [parse_geo, hmem] at h
      · simp [parse_geo, hmem] at h
        exact h.symm
  | str s =>
      cases hw : lib.wkbLoadsStr s with
      | some g => simp [parse_geo, hw] at h
      | none =>
          cases hk : lib.wktLoadsStr s with
          | some g => simp [parse_geo, hw, hk] at h
          | none =>
              cases hj : lib.jsonLoads s with
              | some mg =>
                  by_cases hmem : mg.type ∈ validTypes ++ ["FeatureCollection"]
                  · simp [parse_geo, hw, hk, hj, hmem] at h
                  · simp [parse_geo, hw, hk, hj, hmem] at h
                    exact h.symm
              | none =>
                  simp [parse_geo, hw, hk, hj] at h
                  exact h.symm
  | bytes b =>
      cases hw : lib.wkbLoadsBytes b with
      | some g => simp [parse_geo, hw] at h
      | none =>
          simp [parse_geo, hw] at h
          exact h.symm
  | iter l =>
      simp [parse_geo] at h
      exact h.symm

/-- Claim C7: an iterable-of-geometries input is classified with strategy
"iter_geo", and advancing the returned sequence past any prefix of parseable
items to an unparseable item aborts the whole sequence with the parse error
naming that item; exactly the prefix's records are yielded and nothing after
the offending item is. -/
theorem c7_fail_fast (world : String → Option OGRLayer) (lib : ShapelyLib)
    (pre : List Thing) (bad : Thing) (post : List Thing)
    (hpre : ∀ t ∈ pre, ∃ g, parse_geo lib t = Except.ok g)
    (hbad : ∃ e, parse_geo lib bad = Except.error e) :
    get_features world lib (Thing.iter (pre ++ bad :: post)) =
      Except.ok (FeaturesIter.geoGen (pre ++ bad :: post), "iter_geo", none) ∧
    ∃ ys, geo_records lib (pre ++ bad :: post) =
        (ys, some (Err.cantParse bad)) ∧ ys.length = pre.length := by
  refine ⟨rfl, ?_⟩
  revert hpre
  induction pre with
  | nil =>
      intro _
      obtain ⟨e, he⟩ := hbad
      have hsh := parse_geo_error_shape lib bad e he
      refine ⟨[], ?_, rfl⟩
      simp [geo_records, he, hsh]
  | cons a as ih =>
      intro hpre
      obtain ⟨g, hg⟩ := hpre a (List.mem_cons_self a as)
      have hpre' : ∀ t ∈ as, ∃ g, parse_geo lib t = Except.ok g :=
        fun t ht => hpre t (List.mem_cons_of_mem a ht)
      obtain ⟨ys, hys, hlen⟩ := ih hpre'
      refine ⟨g :: ys, ?_, ?_⟩
      · simp [geo_records, hg, hys]
      · simp [hlen]

/-- Witness for C7: one good Polygon mapping, then a mapping with an
unrecognized type, then another good mapping that is never reached. -/
theorem c7_witness :
    (∀ t ∈ [Thing.mapping polyMap], ∃ g, parse_geo lib0 t = Except.ok g) ∧
    (∃ e, parse_geo lib0 (Thing.mapping badMap) = Except.error e) ∧
    (get_features world0 lib0 (Thing.iter
        ([Thing.mapping polyMap] ++
          Thing.mapping badMap :: [Thing.mapping polyMap])) =
       Except.ok (FeaturesIter.geoGen
         ([Thing.mapping polyMap] ++
           Thing.mapping badMap :: [Thing.mapping polyMap]),
         "iter_geo", none) ∧
     ∃ ys, geo_records lib0
         ([Thing.mapping polyMap] ++
           Thing.mapping badMap :: [Thing.mapping polyMap]) =
         (ys, some (Err.cantParse (Thing.mapping badMap))) ∧
       ys.length = [Thing.mapping polyMap].length) := by
  have h1 : ∀ t ∈ [Thing.mapping polyMap], ∃ g, parse_geo lib0 t = Except.ok g := by
    intro t ht
    simp only [List.mem_singleton] at ht
    subst ht
    exact ⟨polyMap, rfl⟩
  have h2 : ∃ e, parse_geo lib0 (Thing.mapping badMap) = Except.error e :=
    ⟨Err.cantParse (Thing.mapping badMap), rfl⟩
  exact ⟨h1, h2, c7_fail_fast world0 lib0 [Thing.mapping polyMap]
    (Thing.mapping badMap) [Thing.mapping polyMap] h1 h2⟩

/-- A pixel's center point lies in that pixel's world-space cell. -/
theorem pixelCenter_mem_pixelCell (gt : GeoTransform) (row col : ℤ) :
    pixelCenter gt row col ∈ pixelCell gt row col := by
  refine ⟨(col : ℚ) + 1/2, (row : ℚ) + 1/2, by linarith, by linarith,
    by linarith, by linarith, rfl⟩

/-- Claim C8: for every geometry and non-empty window, the mask produced with
`all_touched = true` covers at least as many cells as the mask produced with
`all_touched = false`: a cell whose center lies in the geometry in particular
intersects it, so the inclusive rule is a superset of the strict rule. -/
theorem c8_all_touched_superset (geom : Set (ℚ × ℚ)) (gt : GeoTransform)
    (h w : ℕ) (hh : 0 < h) (hw : 0 < w) :
    Set.ncard {p : Fin h × Fin w | rasterize_geom geom gt false h w p.1 p.2} ≤
      Set.ncard {p : Fin h × Fin w | rasterize_geom geom gt true h w p.1 p.2} := by
  apply Set.ncard_le_ncard
  · intro p hp
    simp only [Set.mem_setOf_eq, rasterize_geom] at hp ⊢
    exact ⟨pixelCenter gt ((p.1 : ℕ) : ℤ) ((p.2 : ℕ) : ℤ), hp,
      pixelCenter_mem_pixelCell gt _ _⟩
  · exact Set.toFinite _

/-- Witness for C8 at the universal geometry and a 1×1 window. -/
theorem c8_witness :
    (0 : ℕ) < 1 ∧ (0 : ℕ) < 1 ∧
    Set.ncard {p : Fin 1 × Fin 1 |
        rasterize_geom Set.univ gtExample false 1 1 p.1 p.2} ≤
      Set.ncard {p : Fin 1 × Fin 1 |
        rasterize_geom Set.univ gtExample true 1 1 p.1 p.2} :=
  ⟨by decide, by decide,
   c8_all_touched_superset Set.univ gtExample 1 1 (by decide) (by decide)⟩
